import Mathlib

/-!
Verification of the VitalScope scan-lifecycle core: a shallow embedding of the
profile gate, image ingestion, scan orchestration and bounded history
persistence implemented in `src/App.tsx`, `src/components/ImageCapture.tsx`
and `src/types.ts`, together with theorems settling the specified properties.

Modelling conventions:
* TypeScript strings are Lean `String`; the `gender` union
  `male | female | other | empty` is a `String` whose empty value plays the
  role of the unset gender, matching JS truthiness tests in the source.
* `localStorage` is a record of the two keys the app owns
  (`sukoyaka_profile`, `sukoyaka_history`); each key holds an optional JSON
  document, modelled as either a well-formed payload or a malformed blob.
  `JSON.parse` is modelled as a function that fails exactly on malformed
  documents; `JSON.stringify` always produces a well-formed document.
* `localStorage.setItem` may throw on quota exhaustion; each call site takes
  an explicit boolean oracle saying whether that write succeeds.
* Asynchronous resolution is modelled by splitting `handleAnalysis` into the
  synchronous part before the `await` (`beginAnalysis`, which captures the
  current Selection in its closure) and the continuation after the response
  arrives (`resolveAnalysis`, applied to whatever state holds at resolution
  time). The `setHistory` updater runs outside the `try` of `handleAnalysis`
  (React runs it at render time), so a failure of both history writes
  surfaces as an uncaught exception, modelled with `Except`.
-/

namespace VitalScope

/-- `UserProfile` from `src/types.ts`. `gender` is the TS string union
`male | female | other | empty-string`; the empty string is the unset value. -/
structure UserProfile where
  age : String
  gender : String
  healthContext : String

/-- `RecommendedProduct` from `src/types.ts`. -/
structure RecommendedProduct where
  name : String
  reason : String

/-- `CalorieAnalysis` from `src/types.ts`. -/
structure CalorieAnalysis where
  productCalories : Int
  userDailyNeed : Int
  percentage : Int
  note : String

/-- `ImageQualityCheck` from `src/types.ts`. -/
structure ImageQualityCheck where
  isUnclear : Bool
  reason : String

/-- `AnalysisResult` from `src/types.ts`; `calorieAnalysis` is optional. -/
structure AnalysisResult where
  imageQualityCheck : ImageQualityCheck
  calorieAnalysis : Option CalorieAnalysis
  summary : String
  pros : List String
  cons : List String
  recommendations : List RecommendedProduct

/-- `ScanHistoryItem` from `src/types.ts`; `imagePreviewUrl` is optional. -/
structure ScanHistoryItem where
  id : String
  timestamp : Nat
  result : AnalysisResult
  imagePreviewUrl : Option String

/-- `AppState` from `src/types.ts`. -/
inductive AppState
  | onboarding
  | dashboard

/-- The document persisted under the `sukoyaka_profile` key: either a
well-formed serialized `UserProfile` or a blob `JSON.parse` rejects. -/
inductive ProfileDoc
  | valid (p : UserProfile)
  | malformed

/-- The document persisted under the `sukoyaka_history` key: either a
well-formed serialized history array or a blob `JSON.parse` rejects. -/
inductive HistoryDoc
  | valid (h : List ScanHistoryItem)
  | malformed

/-- The error `JSON.parse` throws on a malformed document. -/
inductive ParseError
  | malformedDoc

/-- The error `localStorage.setItem` throws when the quota is exhausted. -/
inductive QuotaError
  | quotaExceeded

/-- The two `localStorage` keys owned by the app (`App.tsx` lines 26-27):
`sukoyaka_profile` and `sukoyaka_history`, each optionally holding a document. -/
structure LocalStorage where
  profileKey : Option ProfileDoc
  historyKey : Option HistoryDoc

/-- `JSON.parse` applied to the profile document: succeeds exactly on
well-formed documents (`App.tsx` line 30 has no try/catch around it). -/
def ProfileDoc.parse : ProfileDoc → Except ParseError UserProfile
  | ProfileDoc.valid p => Except.ok p
  | ProfileDoc.malformed => Except.error ParseError.malformedDoc

/-- `JSON.parse` applied to the history document (`App.tsx` line 41). -/
def HistoryDoc.parse : HistoryDoc → Except ParseError (List ScanHistoryItem)
  | HistoryDoc.valid h => Except.ok h
  | HistoryDoc.malformed => Except.error ParseError.malformedDoc

/-- The initial `useState` profile of `App.tsx` line 13: all fields empty. -/
def defaultProfile : UserProfile :=
  { age := "", gender := "", healthContext := "" }

/-- The routing decision of the initialization effect, `App.tsx` line 33:
`if (parsedProfile.age && parsedProfile.healthContext)` routes to the
dashboard, else to onboarding. Note the gender field is not examined. -/
def initRoute (p : UserProfile) : AppState :=
  if p.age != "" && p.healthContext != "" then AppState.dashboard
  else AppState.onboarding

/-- The initialization `useEffect` of `App.tsx` lines 25-43: reads both keys,
parses whatever is present (`JSON.parse` with no try/catch, so a malformed
document propagates its parse error), sets the profile, routes per
`initRoute`, and loads the history. Absent keys leave the initial state:
default profile, onboarding, empty history. -/
def initApp (st : LocalStorage) :
    Except ParseError (UserProfile × AppState × List ScanHistoryItem) :=
  match st.profileKey with
  | none =>
    match st.historyKey with
    | none => Except.ok (defaultProfile, AppState.onboarding, [])
    | some hdoc =>
      match HistoryDoc.parse hdoc with
      | Except.ok h => Except.ok (defaultProfile, AppState.onboarding, h)
      | Except.error e => Except.error e
  | some pdoc =>
    match ProfileDoc.parse pdoc with
    | Except.error e => Except.error e
    | Except.ok parsed =>
      match st.historyKey with
      | none => Except.ok (parsed, initRoute parsed, [])
      | some hdoc =>
        match HistoryDoc.parse hdoc with
        | Except.ok h => Except.ok (parsed, initRoute parsed, h)
        | Except.error e => Except.error e

/-- The profile-loading part of the initialization effect (`App.tsx` lines
26-31): the saved profile when present and parseable, the default when the
key is absent, a propagated parse error when malformed. -/
def loadProfile (st : LocalStorage) : Except ParseError UserProfile :=
  match st.profileKey with
  | none => Except.ok defaultProfile
  | some doc => ProfileDoc.parse doc

/-- `handleProfileSave` of `App.tsx` lines 84-89: stores the profile wholesale
under the profile key (`localStorage.setItem` with no catch, so a quota
failure would throw) and moves to the dashboard. `writeOk` is the quota
oracle for the single write. -/
def handleProfileSave (p : UserProfile) (st : LocalStorage) (writeOk : Bool) :
    Except QuotaError (LocalStorage × AppState) :=
  if writeOk then
    Except.ok ({ st with profileKey := some (ProfileDoc.valid p) }, AppState.dashboard)
  else Except.error QuotaError.quotaExceeded

/-- `isProfileConfigured` of `App.tsx` line 119:
`userProfile.age && userProfile.gender && userProfile.healthContext`,
i.e. JS truthiness of the three strings. -/
def isProfileConfigured (p : UserProfile) : Bool :=
  p.age != "" && p.gender != "" && p.healthContext != ""

/-- The history item built by `saveToHistory` (`App.tsx` lines 52-57):
id and timestamp from `Date.now()`, the result, and `images[0]` as preview
(absent when the image list is empty). -/
def mkHistoryItem (id : String) (ts : Nat) (result : AnalysisResult)
    (images : List String) : ScanHistoryItem :=
  { id := id, timestamp := ts, result := result, imagePreviewUrl := images.head? }

/-- The in-memory history mutation of `App.tsx` lines 60-62:
`updated = [newItem, ...prev]; if (updated.length > 20) updated.pop();`.
Note `pop` removes exactly one trailing element. -/
def trimAppend (item : ScanHistoryItem) (prev : List ScanHistoryItem) :
    List ScanHistoryItem :=
  if (item :: prev).length > 20 then (item :: prev).dropLast else item :: prev

/-- The quota fallback of `App.tsx` line 69: `{...h, imagePreviewUrl: undefined}`. -/
def stripPreview (h : ScanHistoryItem) : ScanHistoryItem :=
  { h with imagePreviewUrl := none }

/-- `saveToHistory` of `App.tsx` lines 46-74. Unclear results return without
touching anything (line 48). Otherwise the new item is prepended with the
one-element trim, the full log is written (oracle `firstWriteOk`); on quota
failure the write is retried with every preview stripped (oracle
`secondWriteOk`), and that second `setItem` sits outside any try, so its
failure propagates. On success the in-memory log returned to React is the
untripped `updated` list. -/
def saveToHistory (result : AnalysisResult) (images : List String)
    (id : String) (ts : Nat) (history : List ScanHistoryItem)
    (st : LocalStorage) (firstWriteOk secondWriteOk : Bool) :
    Except QuotaError (List ScanHistoryItem × LocalStorage) :=
  if result.imageQualityCheck.isUnclear then Except.ok (history, st)
  else
    let updated := trimAppend (mkHistoryItem id ts result images) history
    if firstWriteOk then
      Except.ok (updated, { st with historyKey := some (HistoryDoc.valid updated) })
    else if secondWriteOk then
      Except.ok (updated,
        { st with historyKey := some (HistoryDoc.valid (updated.map stripPreview)) })
    else Except.error QuotaError.quotaExceeded

/-- The scan-related component state of `App.tsx` lines 17-22 plus storage. -/
structure ScanState where
  selectedImages : List String
  isAnalyzing : Bool
  currentResult : Option AnalysisResult
  history : List ScanHistoryItem
  storage : LocalStorage

/-- `resetScan` of `App.tsx` lines 108-111: clears the Selection and the
current result. This is also the retry handler of the unclear-image view
(`onRetry={resetScan}` at line 210). -/
def resetScan (s : ScanState) : ScanState :=
  { s with selectedImages := [], currentResult := none }

/-- The `onImagesSelected` callback wired to `setSelectedImages`
(`App.tsx` line 185). -/
def setSelectedImages (imgs : List String) (s : ScanState) : ScanState :=
  { s with selectedImages := imgs }

/-- The outcome of one `analyzeHealthImpact` call: a structured result, or a
thrown error carrying a user-facing message. -/
inductive GatewayOutcome
  | success (r : AnalysisResult)
  | failure (msg : String)

/-- The synchronous part of `handleAnalysis` before the `await` (`App.tsx`
lines 92-95): early return on an empty Selection, otherwise mark analyzing
and clear the current result. The Selection visible at this point is what the
closure of the attempt captures. -/
def beginAnalysis (s : ScanState) : ScanState :=
  if s.selectedImages.isEmpty then s
  else { s with isAnalyzing := true, currentResult := none }

/-- The continuation of `handleAnalysis` after the gateway responds (`App.tsx`
lines 98-105), applied to the state current at resolution time.
`capturedImages` is the `selectedImages` value captured by the attempt's
closure at call time. There is no attempt identifier: a success
unconditionally sets the current result and appends to history. A thrown
gateway error only alerts (state otherwise untouched); `finally` clears the
busy flag. A double history-write failure propagates (the updater runs
outside the `try`). -/
def resolveAnalysis (capturedImages : List String) (outcome : GatewayOutcome)
    (id : String) (ts : Nat) (firstWriteOk secondWriteOk : Bool)
    (s : ScanState) : Except QuotaError ScanState :=
  match outcome with
  | GatewayOutcome.failure _ => Except.ok { s with isAnalyzing := false }
  | GatewayOutcome.success r =>
    match saveToHistory r capturedImages id ts s.history s.storage
        firstWriteOk secondWriteOk with
    | Except.ok (log, st) =>
      Except.ok { s with currentResult := some r, history := log,
                         storage := st, isAnalyzing := false }
    | Except.error e => Except.error e

/-- `handleAnalysis` of `App.tsx` lines 91-106 run to completion with no
interleaving: begin, then resolve with the captured Selection. -/
def handleAnalysis (s : ScanState) (outcome : GatewayOutcome) (id : String)
    (ts : Nat) (firstWriteOk secondWriteOk : Bool) :
    Except QuotaError ScanState :=
  if s.selectedImages.isEmpty then Except.ok s
  else resolveAnalysis s.selectedImages outcome id ts firstWriteOk secondWriteOk
    (beginAnalysis s)

/-- What the scan tab renders (`App.tsx` lines 148-211): the locked
profile-required card when the profile is not configured; otherwise the
result view when a current result exists; otherwise the capture UI, whose
analyze button is rendered iff the Selection is non-empty (`buttonShown`)
and disabled while analyzing (`busy`). -/
inductive ScanView
  | locked
  | capture (buttonShown : Bool) (busy : Bool)
  | resultView

/-- The scan-tab render decision of `App.tsx` lines 151-211. -/
def scanTabView (p : UserProfile) (currentResult : Option AnalysisResult)
    (selectedImages : List String) (isAnalyzing : Bool) : ScanView :=
  if !(isProfileConfigured p) then ScanView.locked
  else
    match currentResult with
    | none => ScanView.capture (decide (0 < selectedImages.length)) isAnalyzing
    | some _ => ScanView.resultView

/-- `handleAnalysis` is reachable only through the analyze button
(`App.tsx` line 189): the button must be rendered and enabled. -/
def canDispatchAnalysis (p : UserProfile) (currentResult : Option AnalysisResult)
    (selectedImages : List String) (isAnalyzing : Bool) : Bool :=
  match scanTabView p currentResult selectedImages isAnalyzing with
  | ScanView.capture shown busy => shown && !busy
  | _ => false

/-- One file of an `addFiles` batch as seen by its `FileReader`: a data-URL
on success, or a failed decode (`reader.result` null). -/
inductive DecodeOutcome
  | ok (dataUrl : String)
  | failed

/-- The batch fan-in of `handleFileChange` (`ImageCapture.tsx` lines 19-33):
each `onloadend` callback pushes its data-URL into `newPreviews` as it fires,
so the buffer holds the successful decodes in completion order.
`completionOrder` lists the indices of the batch in the order their readers
fire (a permutation of the batch positions); failed decodes are skipped. -/
def decodedInCompletionOrder (files : List DecodeOutcome)
    (completionOrder : List Nat) : List String :=
  completionOrder.filterMap (fun i =>
    match files.get? i with
    | some (DecodeOutcome.ok s) => some s
    | _ => none)

/-- The Selection published when the last reader of the batch fires
(`ImageCapture.tsx` lines 26-29): the previous previews followed by the
batch's successful decodes in the order their callbacks completed. -/
def handleFileChange (previews : List String) (files : List DecodeOutcome)
    (completionOrder : List Nat) : List String :=
  previews ++ decodedInCompletionOrder files completionOrder

/-- A concrete non-unclear analysis result used in scenario evaluations. -/
def demoResult : AnalysisResult :=
  { imageQualityCheck := { isUnclear := false, reason := "" }
    calorieAnalysis := none
    summary := "ok"
    pros := []
    cons := []
    recommendations := [] }

/-- A concrete unclear analysis result used in scenario evaluations. -/
def unclearResult : AnalysisResult :=
  { imageQualityCheck := { isUnclear := true, reason := "blurry" }
    calorieAnalysis := none
    summary := ""
    pros := []
    cons := []
    recommendations := [] }

/-- A concrete history item used in scenario evaluations. -/
def demoItem : ScanHistoryItem :=
  { id := "0", timestamp := 0, result := demoResult, imagePreviewUrl := none }

/-- The state at the start of the stale-response scenario: Selection `[S1]`,
nothing in flight, empty history and storage. -/
def staleScenarioStart : ScanState :=
  { selectedImages := ["S1"], isAnalyzing := false, currentResult := none,
    history := [], storage := { profileKey := none, historyKey := none } }

/-- Claim C1 (code bug). `handleFileChange` publishes the batch only after all
decodes complete, but in decode completion order: the batch `[A, B, C]` whose
readers fire in order `C, A, B` publishes `["C", "A", "B"]`, not the input
order `["A", "B", "C"]` the claim requires, while the same batch completing
in input order publishes `["A", "B", "C"]` — so the published order is a
function of completion order, contradicting the claim. -/
theorem handleFileChange_completion_order_observed :
    handleFileChange []
      [DecodeOutcome.ok "A", DecodeOutcome.ok "B", DecodeOutcome.ok "C"]
      [2, 0, 1] = ["C", "A", "B"] ∧
    handleFileChange []
      [DecodeOutcome.ok "A", DecodeOutcome.ok "B", DecodeOutcome.ok "C"]
      [0, 1, 2] = ["A", "B", "C"] ∧
    (["C", "A", "B"] : List String) ≠ ["A", "B", "C"] :=
  ⟨rfl, rfl, by decide⟩

/-- Claim C2 (code bug). Stale-response scenario: attempt 1 begins on
Selection `[S1]`, the orchestrator is reset, the Selection becomes `[S2]`,
attempt 2 begins, and then attempt 1's gateway response (a non-unclear
result) resolves. The code has no attempt identifier: the stale response is
applied — it becomes the current result and its entry (built from the
captured Selection `[S1]`) is appended to history while attempt 2's
Selection `[S2]` is in flight — instead of being detected and dropped. -/
theorem stale_response_applied_scenario :
    (resolveAnalysis staleScenarioStart.selectedImages
        (GatewayOutcome.success demoResult) "a1" 1 true true
        (beginAnalysis (setSelectedImages ["S2"]
          (resetScan (beginAnalysis staleScenarioStart))))).map
      (fun s => (s.currentResult, s.history.map (fun e => e.result),
                 s.history.map (fun e => e.imagePreviewUrl), s.selectedImages))
    = Except.ok (some demoResult, [demoResult], [some "S1"], ["S2"]) := rfl

/-- Claim C3, counterexample. A non-unclear append whose full write and whose
stripped retry both fail throws `QuotaError.quotaExceeded` to the caller:
the failure is not swallowed, contradicting the claim. -/
theorem saveToHistory_double_failure_throws :
    saveToHistory demoResult ["img"] "1" 0 []
      { profileKey := none, historyKey := none } false false
    = Except.error QuotaError.quotaExceeded := rfl

/-- Claim C3, amended. When the first history write fails, the store
automatically retries with every entry's `imagePreviewUrl` stripped; if the
stripped write succeeds, no error surfaces, the stripped log is persisted and
the in-memory log still heads with the new entry (previews intact in memory).
If the stripped write also fails, the quota error propagates to the caller
rather than being swallowed. -/
theorem saveToHistory_stripped_retry (r : AnalysisResult) (images : List String)
    (id : String) (ts : Nat) (history : List ScanHistoryItem)
    (st : LocalStorage) (h : r.imageQualityCheck.isUnclear = false) :
    saveToHistory r images id ts history st false true =
      Except.ok (trimAppend (mkHistoryItem id ts r images) history,
        { st with historyKey := some (HistoryDoc.valid
            ((trimAppend (mkHistoryItem id ts r images) history).map stripPreview)) }) ∧
    (trimAppend (mkHistoryItem id ts r images) history).head? =
      some (mkHistoryItem id ts r images) ∧
    saveToHistory r images id ts history st false false =
      Except.error QuotaError.quotaExceeded := by
  refine ⟨by simp [saveToHistory, h], ?_, by simp [saveToHistory, h]⟩
  unfold trimAppend
  cases history with
  | nil => simp
  | cons a as =>
    by_cases hl : (mkHistoryItem id ts r images :: a :: as).length > 20
    · rw [if_pos hl]
      rfl
    · rw [if_neg hl]
      rfl

/-- Claim C3, witness: the amended behavior evaluated at a concrete input
whose first write fails and whose stripped retry both fails and succeeds. -/
theorem saveToHistory_stripped_retry_witness :
    saveToHistory demoResult ["img"] "1" 0 []
        { profileKey := none, historyKey := none } false false =
      Except.error QuotaError.quotaExceeded ∧
    (trimAppend (mkHistoryItem "1" 0 demoResult ["img"]) []).head? =
      some (mkHistoryItem "1" 0 demoResult ["img"]) :=
  ⟨(saveToHistory_stripped_retry demoResult ["img"] "1" 0 []
      { profileKey := none, historyKey := none } rfl).2.2,
   (saveToHistory_stripped_retry demoResult ["img"] "1" 0 []
      { profileKey := none, historyKey := none } rfl).2.1⟩

/-- Claim C4, counterexample. A malformed persisted profile document makes
initialization throw a parse error (there is no try/catch around
`JSON.parse`), and so does a malformed history document next to a valid
profile — malformed documents are propagated, not treated as absent. -/
theorem initApp_malformed_doc_throws :
    initApp { profileKey := some ProfileDoc.malformed, historyKey := none } =
      Except.error ParseError.malformedDoc ∧
    initApp { profileKey := some (ProfileDoc.valid defaultProfile),
              historyKey := some HistoryDoc.malformed } =
      Except.error ParseError.malformedDoc :=
  ⟨rfl, rfl⟩

/-- Claim C4, amended. Loading an absent profile document yields the empty
profile and the onboarding route, an absent history document yields the empty
log, and well-formed documents load exactly their saved values — none of
these throw. But a malformed persisted document is not treated as absent:
its parse error propagates out of initialization (profile parsed first, so a
malformed profile throws regardless of the history document). -/
theorem initApp_load_behavior :
    initApp { profileKey := none, historyKey := none } =
      Except.ok (defaultProfile, AppState.onboarding, []) ∧
    (∀ p, initApp { profileKey := some (ProfileDoc.valid p), historyKey := none } =
      Except.ok (p, initRoute p, [])) ∧
    (∀ p h, initApp { profileKey := some (ProfileDoc.valid p),
                      historyKey := some (HistoryDoc.valid h) } =
      Except.ok (p, initRoute p, h)) ∧
    (∀ h, initApp { profileKey := none, historyKey := some (HistoryDoc.valid h) } =
      Except.ok (defaultProfile, AppState.onboarding, h)) ∧
    (∀ hk, initApp { profileKey := some ProfileDoc.malformed, historyKey := hk } =
      Except.error ParseError.malformedDoc) ∧
    (∀ p, initApp { profileKey := some (ProfileDoc.valid p),
                    historyKey := some HistoryDoc.malformed } =
      Except.error ParseError.malformedDoc) ∧
    initApp { profileKey := none, historyKey := some HistoryDoc.malformed } =
      Except.error ParseError.malformedDoc :=
  ⟨rfl, fun _ => rfl, fun _ _ => rfl, fun _ => rfl, fun _ => rfl, fun _ => rfl, rfl⟩

/-- Claim C5, counterexample. Appending (a successful write) to a 22-entry
in-memory log yields a 22-entry log: the code pops exactly one entry, so the
store does not evict "until the length equals 20" and `length ≤ 20` does not
hold after every write on every log. -/
theorem append_to_overlong_log_exceeds_bound :
    (saveToHistory demoResult ["img"] "1" 1 (List.replicate 22 demoItem)
        { profileKey := none, historyKey := none } true true).map
      (fun x => x.1.length) = Except.ok 22 := rfl

/-- Claim C5, amended. Appending inserts the new entry at the head and, when
the resulting length exceeds 20, evicts exactly one entry from the tail.
Hence on any log of length at most 20 the bound `length ≤ 20` is preserved,
and appending a 21st entry to a full 20-entry log yields the new entry
followed by the old log minus its last (oldest) entry; but a log already
longer than 20 is not trimmed back to 20. -/
theorem saveToHistory_bound (r : AnalysisResult) (images : List String)
    (id : String) (ts : Nat) (prev : List ScanHistoryItem) (st : LocalStorage)
    (hr : r.imageQualityCheck.isUnclear = false) (hlen : prev.length ≤ 20) :
    saveToHistory r images id ts prev st true true =
      Except.ok (trimAppend (mkHistoryItem id ts r images) prev,
        { st with historyKey := some (HistoryDoc.valid
            (trimAppend (mkHistoryItem id ts r images) prev)) }) ∧
    (trimAppend (mkHistoryItem id ts r images) prev).length ≤ 20 ∧
    (prev.length = 20 →
      trimAppend (mkHistoryItem id ts r images) prev =
        mkHistoryItem id ts r images :: prev.dropLast) := by
  refine ⟨by simp [saveToHistory, hr], ?_, ?_⟩
  · unfold trimAppend
    by_cases hl : (mkHistoryItem id ts r images :: prev).length > 20
    · rw [if_pos hl]
      simp only [List.length_dropLast, List.length_cons]
      omega
    · rw [if_neg hl]
      simp only [List.length_cons] at hl ⊢
      omega
  · intro h20
    unfold trimAppend
    rw [if_pos (by simp only [List.length_cons, h20]; omega)]
    cases prev with
    | nil => simp at h20
    | cons a as => rfl

/-- Claim C5, witness: the amended behavior applied to a full 20-entry log. -/
theorem saveToHistory_bound_witness :
    (trimAppend (mkHistoryItem "1" 0 demoResult ["img"])
        (List.replicate 20 demoItem)).length ≤ 20 ∧
    trimAppend (mkHistoryItem "1" 0 demoResult ["img"]) (List.replicate 20 demoItem) =
      mkHistoryItem "1" 0 demoResult ["img"] :: (List.replicate 20 demoItem).dropLast :=
  ⟨(saveToHistory_bound demoResult ["img"] "1" 0 (List.replicate 20 demoItem)
      { profileKey := none, historyKey := none } rfl (by decide)).2.1,
   (saveToHistory_bound demoResult ["img"] "1" 0 (List.replicate 20 demoItem)
      { profileKey := none, historyKey := none } rfl (by decide)).2.2 (by decide)⟩

/-- Every member of a one-pop trimmed append is the new item or a member of
the previous log. -/
theorem trimAppend_mem {e item : ScanHistoryItem} {prev : List ScanHistoryItem}
    (h : e ∈ trimAppend item prev) : e = item ∨ e ∈ prev := by
  unfold trimAppend at h
  by_cases hl : (item :: prev).length > 20
  · rw [if_pos hl] at h
    have h2 := List.dropLast_subset _ h
    simpa using h2
  · rw [if_neg hl] at h
    simpa using h

/-- Claim C6. An analysis result with `imageQualityCheck.isUnclear = true` is
never persisted: `saveToHistory` returns the in-memory log and the storage
unchanged (no entry is created); consequently, if every entry of the history
log has a non-unclear result, the same holds after any successful
`saveToHistory`, whatever the result and write outcomes. -/
theorem unclear_results_never_persisted :
    (∀ (r : AnalysisResult) (images : List String) (id : String) (ts : Nat)
        (history : List ScanHistoryItem) (st : LocalStorage) (o1 o2 : Bool),
      r.imageQualityCheck.isUnclear = true →
      saveToHistory r images id ts history st o1 o2 = Except.ok (history, st)) ∧
    (∀ (r : AnalysisResult) (images : List String) (id : String) (ts : Nat)
        (history : List ScanHistoryItem) (st : LocalStorage) (o1 o2 : Bool)
        (log : List ScanHistoryItem) (st2 : LocalStorage),
      (∀ e ∈ history, e.result.imageQualityCheck.isUnclear = false) →
      saveToHistory r images id ts history st o1 o2 = Except.ok (log, st2) →
      ∀ e ∈ log, e.result.imageQualityCheck.isUnclear = false) := by
  constructor
  · intro r images id ts history st o1 o2 hr
    simp [saveToHistory, hr]
  · intro r images id ts history st o1 o2 log st2 hinv hok e hel
    by_cases hr : r.imageQualityCheck.isUnclear = true
    · simp [saveToHistory, hr] at hok
      rw [← hok.1] at hel
      exact hinv e hel
    · have hr2 : r.imageQualityCheck.isUnclear = false := by
        cases hb : r.imageQualityCheck.isUnclear
        · rfl
        · exact absurd hb hr
      have hmem : ∀ e2 ∈ trimAppend (mkHistoryItem id ts r images) history,
          e2.result.imageQualityCheck.isUnclear = false := by
        intro e2 he2
        rcases trimAppend_mem he2 with h1 | h2
        · rw [h1]
          exact hr2
        · exact hinv e2 h2
      cases o1 with
      | true =>
        simp [saveToHistory, hr2] at hok
        rw [← hok.1] at hel
        exact hmem e hel
      | false =>
        cases o2 with
        | true =>
          simp [saveToHistory, hr2] at hok
          rw [← hok.1] at hel
          exact hmem e hel
        | false => simp [saveToHistory, hr2] at hok

/-- Claim C6, witness: an unclear result leaves a concrete log and storage
unchanged, and the all-non-unclear invariant holds on the concrete committed
log of a successful append. -/
theorem unclear_results_never_persisted_witness :
    saveToHistory unclearResult ["i"] "1" 0 [demoItem]
        { profileKey := none, historyKey := none } true true =
      Except.ok ([demoItem], { profileKey := none, historyKey := none }) :=
  unclear_results_never_persisted.1 unclearResult ["i"] "1" 0 [demoItem]
    { profileKey := none, historyKey := none } true true rfl

/-- Claim C7. `isProfileConfigured p` is true iff `p.age` is non-empty, the
gender is not the unset (empty-string) value, and `p.healthContext` is
non-empty; and whenever it is false, no analysis can be dispatched: the
analyze button that invokes `handleAnalysis` exists only in the capture view
of the scan tab, which is rendered only for a configured profile (otherwise
the locked card routing to settings is shown). -/
theorem profile_gate_spec :
    (∀ p : UserProfile, isProfileConfigured p = true ↔
      (p.age ≠ "" ∧ p.gender ≠ "" ∧ p.healthContext ≠ "")) ∧
    (∀ (p : UserProfile) (cr : Option AnalysisResult) (imgs : List String)
        (b : Bool),
      canDispatchAnalysis p cr imgs b = true → isProfileConfigured p = true) := by
  constructor
  · intro p
    simp [isProfileConfigured, Bool.and_eq_true, bne_iff_ne, and_assoc]
  · intro p cr imgs b h
    by_cases hc : isProfileConfigured p = true
    · exact hc
    · exfalso
      have hc2 : isProfileConfigured p = false := by
        cases hb : isProfileConfigured p
        · rfl
        · exact absurd hb hc
      simp [canDispatchAnalysis, scanTabView, hc2] at h

/-- Claim C7, witness: the gate evaluated where the analyze button is
rendered and enabled for a concrete configured profile. -/
theorem profile_gate_spec_witness :
    isProfileConfigured { age := "30", gender := "male", healthContext := "c" }
      = true :=
  profile_gate_spec.2 { age := "30", gender := "male", healthContext := "c" }
    none ["i"] false (by decide)

/-- Claim C8. A transient gateway failure (the analyze call throws) leaves
the Selection, the in-memory history and the persisted storage unchanged —
the user can retry with the same Selection — while the unclear-image retry
handler (`resetScan`) clears the Selection: the deliberate asymmetry. -/
theorem gateway_failure_preserves_selection :
    (∀ (s : ScanState) (msg id : String) (ts : Nat) (o1 o2 : Bool),
      ∃ s2, handleAnalysis s (GatewayOutcome.failure msg) id ts o1 o2 =
          Except.ok s2 ∧
        s2.selectedImages = s.selectedImages ∧
        s2.history = s.history ∧
        s2.storage = s.storage) ∧
    (∀ s : ScanState, (resetScan s).selectedImages = []) := by
  constructor
  · intro s msg id ts o1 o2
    by_cases he : s.selectedImages.isEmpty = true
    · exact ⟨s, by simp [handleAnalysis, he], rfl, rfl, rfl⟩
    · refine ⟨{ beginAnalysis s with isAnalyzing := false }, ?_, ?_, ?_, ?_⟩ <;>
        simp [handleAnalysis, resolveAnalysis, beginAnalysis, he]
  · intro s
    rfl

/-- Claim C9. Saving a profile writes it wholesale to the profile key, and a
subsequent load returns exactly the saved profile: the save/load round-trip
is the identity for every structurally valid profile. -/
theorem profile_save_load_roundtrip (p : UserProfile) (st : LocalStorage) :
    ∃ st2, handleProfileSave p st true = Except.ok (st2, AppState.dashboard) ∧
      loadProfile st2 = Except.ok p :=
  ⟨{ st with profileKey := some (ProfileDoc.valid p) }, rfl, rfl⟩

/-- Claim C10. The startup route checks only that the saved profile's age and
healthContext are non-empty, not its gender: a saved profile with non-empty
age and healthContext but unset (empty) gender reaches the dashboard state,
where the scan tab then renders the locked profile-required card instead of
the capture UI. -/
theorem startup_route_ignores_gender (p : UserProfile)
    (hage : p.age ≠ "") (hctx : p.healthContext ≠ "") (hg : p.gender = "") :
    initApp { profileKey := some (ProfileDoc.valid p), historyKey := none } =
      Except.ok (p, AppState.dashboard, []) ∧
    scanTabView p none [] false = ScanView.locked := by
  constructor
  · have h1 : initApp { profileKey := some (ProfileDoc.valid p),
                        historyKey := none }
        = Except.ok (p, initRoute p, []) := rfl
    have hroute : initRoute p = AppState.dashboard := by
      unfold initRoute
      rw [if_pos (by simp only [Bool.and_eq_true, bne_iff_ne]; exact ⟨hage, hctx⟩)]
    rw [h1, hroute]
  · have hconf : isProfileConfigured p = false := by
      simp [isProfileConfigured, hg]
    unfold scanTabView
    rw [hconf]
    rfl

/-- Claim C10, witness: a concrete saved profile with non-empty age and
healthContext but unset gender routes to the dashboard yet locks the scan
tab. -/
theorem startup_route_ignores_gender_witness :
    initApp { profileKey :=
                some (ProfileDoc.valid
                  { age := "30", gender := "", healthContext := "c" }),
              historyKey := none } =
      Except.ok ({ age := "30", gender := "", healthContext := "c" },
        AppState.dashboard, []) ∧
    scanTabView { age := "30", gender := "", healthContext := "c" } none [] false =
      ScanView.locked :=
  startup_route_ignores_gender { age := "30", gender := "", healthContext := "c" }
    (by decide) (by decide) rfl

end VitalScope
